import Mathlib

/-!
Verification of the pagination-and-classification pipeline of
`src/app.py` (Print Fleet Optimizer Agent).

The development shallowly embeds the Python source:

* JSON values (`JVal`) model the bodies handed around by the code;
  Python `dict.get`, truthiness and the `or` idiom are modelled by
  `objGet` / `JVal.truthy` / `pyOr`.
* Python float arithmetic on the ratios is modelled by exact fractions
  (`Frac`, an integer numerator over a natural denominator; every value
  the code constructs has a positive denominator).  Every comparison a
  claim exercises is far from a floating-point rounding boundary, so the
  exact model agrees with the float computation there.
* Code that can raise is modelled in `Except Unit`; code whose
  exceptions are caught locally (the two `try/except` ratio blocks of
  `_analyze_single_printer`) is modelled by the caught default directly.
-/

/-- A JSON-ish value as produced by `resp.json()` in `src/app.py`.
Numbers carry an exact fraction (numerator, positive denominator). -/
inductive JVal where
  | jnull
  | jbool (b : Bool)
  | jnum (n : Int) (d : Nat)
  | jstr (s : String)
  | jarr (xs : List JVal)
  | jobj (fields : List (String × JVal))
deriving Repr

/-- Exact fraction standing in for a Python float: numerator over a
natural denominator.  All fractions built by the embedded code have a
positive denominator. -/
structure Frac where
  n : Int
  d : Nat
deriving Repr, DecidableEq

/-- Fraction from an integer. -/
def Frac.ofInt (i : Int) : Frac := ⟨i, 1⟩

/-- Value comparison `a < b` by cross multiplication (denominators
positive in every constructed value). -/
def Frac.lt (a b : Frac) : Bool := a.n * (b.d : Int) < b.n * (a.d : Int)

/-- Python `x > 0` for a fraction with positive denominator. -/
def Frac.pos (q : Frac) : Bool := 0 < q.n

/-- Exact division `a / b`, used by the code only under a `b > 0` guard
(`color / total if total > 0 else 0`), hence `b.n.toNat` is faithful. -/
def Frac.div (a b : Frac) : Frac := ⟨a.n * (b.d : Int), a.d * b.n.toNat⟩

/-- Value equality of two fractions by cross multiplication. -/
def Frac.valEq (a b : Frac) : Bool := a.n * (b.d : Int) == b.n * (a.d : Int)

mutual
/-- Python `==` on JSON values.  Numbers and booleans compare by value
(`True == 1` holds in Python); mixed kinds compare unequal.  (Python
compares dicts ignoring key order; no claim compares dict values, and
the embedding compares them field by field.) -/
def JVal.beq : JVal → JVal → Bool
  | .jnull, .jnull => true
  | .jbool a, .jbool b => a == b
  | .jnum a b, .jnum c d => a * (d : Int) == c * (b : Int)
  | .jbool a, .jnum c d => (if a then 1 else 0) * (d : Int) == c
  | .jnum c d, .jbool a => (if a then 1 else 0) * (d : Int) == c
  | .jstr a, .jstr b => a == b
  | .jarr xs, .jarr ys => JVal.beqList xs ys
  | .jobj xs, .jobj ys => JVal.beqObj xs ys
  | _, _ => false

/-- Elementwise Python `==` on JSON lists. -/
def JVal.beqList : List JVal → List JVal → Bool
  | [], [] => true
  | x :: xs, y :: ys => JVal.beq x y && JVal.beqList xs ys
  | _, _ => false

/-- Fieldwise Python `==` on JSON objects (see `JVal.beq`). -/
def JVal.beqObj : List (String × JVal) → List (String × JVal) → Bool
  | [], [] => true
  | (k, v) :: xs, (k2, v2) :: ys => k == k2 && JVal.beq v v2 && JVal.beqObj xs ys
  | _, _ => false
end

/-- Python truthiness of a JSON value (`None`, `False`, `0`, `""`, `[]`
and `{}` are falsy). -/
def JVal.truthy : JVal → Bool
  | .jnull => false
  | .jbool b => b
  | .jnum i _ => i != 0
  | .jstr s => !s.isEmpty
  | .jarr xs => !xs.isEmpty
  | .jobj fs => !fs.isEmpty

/-- Python `a or b` (returns `a` when truthy, else `b`). -/
def pyOr (a b : JVal) : JVal := if a.truthy then a else b

/-- A JSON object's field list: the record shape consumed by the
classifier and the dedup loop (Python dicts keep insertion order and
have unique keys; lookup takes the first matching field). -/
def Rec := List (String × JVal)

/-- Python `d.get(k, dflt)`. -/
def objGet (fs : List (String × JVal)) (k : String) (dflt : JVal) : JVal :=
  match fs.find? (fun p => p.1 == k) with
  | some p => p.2
  | none => dflt

/-- Field lookup without a default, as `Option`. -/
def objFind (fs : List (String × JVal)) (k : String) : Option JVal :=
  (fs.find? (fun p => p.1 == k)).map (fun p => p.2)

/-- Numeric coercion used where Python does arithmetic or an order
comparison: numbers and booleans succeed, everything else raises a
`TypeError` in Python (modelled as `none`). -/
def toNum : JVal → Option Frac
  | .jnum i d => some ⟨i, d⟩
  | .jbool b => some (Frac.ofInt (if b then 1 else 0))
  | _ => none

/-! ## RecordClassifier: `PrintFleetOptimizerAgent._analyze_single_printer` -/

/-- Round half to even, the rounding Python's `format` applies for
`f"{x:.0%}"` (exact-fraction model; no claim sits on a rounding
boundary). -/
def Frac.roundHalfEven (q : Frac) : Int :=
  let f := Int.fdiv q.n (q.d : Int)
  let r2 := 2 * (q.n - f * (q.d : Int))
  if r2 < (q.d : Int) then f
  else if (q.d : Int) < r2 then f + 1
  else if f % 2 == 0 then f else f + 1

/-- Python `f"{q:.0%}"`: the ratio as a whole percentage. -/
def formatPct (q : Frac) : String :=
  toString (Frac.roundHalfEven ⟨q.n * 100, q.d⟩) ++ "%"

/-- Lines 239-244 / 250-255 of `src/app.py`: one `try/except` ratio
block.  `num = counters.get(numKey, 0)`, `den = counters.get(denKey,
dflt)`, `ratio = num / den if den > 0 else 0`; any `TypeError` raised by
the comparison or the division (non-numeric field, or `counters` itself a
truthy non-dict, whose `.get` raises `AttributeError`) is caught and the
ratio degrades to `0`. -/
def tryRatio (counters : JVal) (numKey denKey : String) (denDefault : Frac) : Frac :=
  match counters with
  | .jobj fs =>
    let numv := objGet fs numKey (.jnum 0 1)
    let denv := objGet fs denKey (.jnum denDefault.n denDefault.d)
    match toNum denv with
    | some t =>
      if Frac.pos t then
        match toNum numv with
        | some c => Frac.div c t
        | none => Frac.ofInt 0
      else Frac.ofInt 0
    | none => Frac.ofInt 0
  | _ => Frac.ofInt 0

/-- Line 225 of `src/app.py`: `printer.get('serialNumber',
printer.get('serial', printer.get('id', 'N/A')))` — note this chain is
keyed on key *presence*, not on truthiness of the stored value. -/
def reportId (printer : Rec) : JVal :=
  objGet printer "serialNumber" (objGet printer "serial" (objGet printer "id" (.jstr "N/A")))

/-- Line 234: `printer.get('counters', {}) or {}`. -/
def countersVal (printer : Rec) : JVal := pyOr (objGet printer "counters" (.jobj [])) (.jobj [])

/-- Line 235: `printer.get('supplies', []) or []`. -/
def suppliesVal (printer : Rec) : JVal := pyOr (objGet printer "supplies" (.jarr [])) (.jarr [])

/-- Line 236: `printer.get('alerts', []) or []`. -/
def alertsVal (printer : Rec) : JVal := pyOr (objGet printer "alerts" (.jarr [])) (.jarr [])

/-- The `color_ratio` used by rule 1 (lines 239-244). -/
def color_ratio_of (printer : Rec) : Frac :=
  tryRatio (countersVal printer) "colorPrintSideCount" "printSideCount" (Frac.ofInt 1)

/-- The `duplex_ratio` used by rule 2 (lines 250-255). -/
def duplex_ratio_of (printer : Rec) : Frac :=
  tryRatio (countersVal printer) "duplexSheetCount" "printSheetCount" (Frac.ofInt 1)

/-- Iterating a value in a list comprehension.  By the `or []` guard the
value is either a list or truthy; iterating a truthy non-list (string,
dict, number) raises inside `_analyze_single_printer` at its first
element, modelled as `Except.error`. -/
def pyIter (v : JVal) : Except Unit (List JVal) :=
  match v with
  | .jarr xs => .ok xs
  | _ => .error ()

/-- Line 261's comprehension filter: `s.get('percentRemaining', 100) < 20
and s.get('type') == 'Toner'`.  A non-dict element (`.get` raises) or a
non-numeric `percentRemaining` (`<` raises) aborts the record's
classification. -/
def lowTonerFilter (s : JVal) : Except Unit Bool :=
  match s with
  | .jobj fs =>
    match toNum (objGet fs "percentRemaining" (.jnum 100 1)) with
    | some p => .ok (Frac.lt p (Frac.ofInt 20) && JVal.beq (objGet fs "type" .jnull) (.jstr "Toner"))
    | none => .error ()
  | _ => .error ()

/-- Line 263: `s.get('color', 'Unknown')` for a low-toner entry; a
non-string color makes the subsequent `", ".join` raise. -/
def colorStr (s : JVal) : Except Unit String :=
  match s with
  | .jobj fs =>
    match objGet fs "color" (.jstr "Unknown") with
    | .jstr c => .ok c
    | _ => .error ()
  | _ => .error ()

/-- Line 268's comprehension filter: `a.get('status') in ['ERROR',
'CRITICAL']` (non-dict alert entries raise). -/
def criticalFilter (a : JVal) : Except Unit Bool :=
  match a with
  | .jobj fs =>
    let s := objGet fs "status" .jnull
    .ok (JVal.beq s (.jstr "ERROR") || JVal.beq s (.jstr "CRITICAL"))
  | _ => .error ()

/-- Rule 3 (lines 260-265): the low-toner insight and flag for the
`supplies` value. -/
def supplyInsight (v : JVal) : Except Unit (List String × Bool) :=
  match pyIter v with
  | .error e => .error e
  | .ok supplies =>
    match supplies.filterM lowTonerFilter with
    | .error e => .error e
    | .ok low_toner =>
      if low_toner.isEmpty then .ok ([], false)
      else
        match low_toner.mapM colorStr with
        | .error e => .error e
        | .ok colors => .ok (["Toner: " ++ String.intercalate ", " colors], true)

/-- Rule 4 (lines 267-271): the critical-alert insight and flag for the
`alerts` value.  (The comprehension collects each passing alert's
`issue`; only its length is consumed, so the embedding keeps the count.) -/
def alertInsight (v : JVal) : Except Unit (List String × Bool) :=
  match pyIter v with
  | .error e => .error e
  | .ok alerts =>
    match alerts.filterM criticalFilter with
    | .error e => .error e
    | .ok critical =>
      if critical.isEmpty then .ok ([], false)
      else .ok (["Erro: " ++ toString critical.length], true)

/-- The classification report built at lines 224-232 and mutated by the
four rules. -/
structure Report where
  id : JVal
  model : JVal
  insights : List String
  pb_padrao : Bool
  duplex : Bool
  reposicao : Bool
  manutencao : Bool
deriving Repr

/-- The successfully built report, given the outcomes of rules 3 and 4
(rules 1 and 2 never raise: their `try/except` is folded into
`tryRatio`). -/
def buildReport (printer : Rec) (supply : List String × Bool) (alert : List String × Bool) : Report :=
  let color_ratio := color_ratio_of printer
  let duplex_ratio := duplex_ratio_of printer
  let pb := Frac.lt ⟨7, 10⟩ color_ratio
  let ins1 := if pb then ["Cor: " ++ formatPct color_ratio] else []
  let dup := Frac.lt duplex_ratio ⟨1, 2⟩
  let ins2 := if dup then ["Duplex: " ++ formatPct duplex_ratio] else []
  { id := reportId printer
    model := objGet printer "modelName" (.jstr "N/A")
    insights := ins1 ++ ins2 ++ supply.1 ++ alert.1
    pb_padrao := pb
    duplex := dup
    reposicao := supply.2
    manutencao := alert.2 }

/-- `PrintFleetOptimizerAgent._analyze_single_printer` (lines 223-273).
Pure: raw record in, classification report out; `Except.error` is a
Python exception escaping the method (caught by the page loop's
`try/except`). -/
def analyze_single_printer (printer : Rec) : Except Unit Report :=
  match supplyInsight (suppliesVal printer), alertInsight (alertsVal printer) with
  | .ok s, .ok a => .ok (buildReport printer s a)
  | .error e, _ => .error e
  | .ok _, .error e => .error e

/-! ## FleetPipeline: the `start_btn` page loop (lines 285-355) -/

/-- Line 298: `serial = p.get('serialNumber') or p.get('serial') or
p.get('id')` — the cross-page deduplication key, keyed on *truthiness*
(an or-chain returns its last operand when every operand is falsy). -/
def dedupSerial (p : Rec) : JVal :=
  pyOr (objGet p "serialNumber" .jnull) (pyOr (objGet p "serial" .jnull) (objGet p "id" .jnull))

/-- Python `serial in seen_serials` (set membership by `==`). -/
def seenMem (seen : List JVal) (s : JVal) : Bool := seen.any (fun x => JVal.beq s x)

/-- Lines 311-319: the fallback report built when
`_analyze_single_printer` raises.  (Python interpolates the exception
text into the single insight; the embedding carries the fixed prefix
only, and no claim inspects that string.) -/
def errorReport (serial : JVal) (p : Rec) : Report :=
  { id := pyOr serial (.jstr "N/A")
    model := objGet p "modelName" (.jstr "N/A")
    insights := ["Erro"]
    pb_padrao := false
    duplex := false
    reposicao := false
    manutencao := false }

/-- The report the page loop appends for a record (lines 307-319):
the classifier's report, or the fallback if it raised. -/
def pipelineReport (p : Rec) : Report :=
  match analyze_single_printer p with
  | .ok r => r
  | .error _ => errorReport (dedupSerial p) p

/-- The run's mutable accumulation state: `seen_serials` (a set, kept
here as a duplicate-free list) and `reports` (insertion order is
display order). -/
structure PipeState where
  seen_serials : List JVal
  reports : List Report

/-- The empty state built at lines 285-286. -/
def initState : PipeState := ⟨[], []⟩

/-- Lines 297-320, body of `for p in page_items`: skip a truthy serial
already seen; record a truthy serial as seen; classify and append.  A
falsy serial is neither checked nor recorded.  (When a truthy serial is
recorded it is not yet in the list, so consing keeps the set
duplicate-free.) -/
def processRecord (st : PipeState) (p : Rec) : PipeState :=
  let serial := dedupSerial p
  if serial.truthy && seenMem st.seen_serials serial then st
  else
    { seen_serials := if serial.truthy then serial :: st.seen_serials else st.seen_serials
      reports := st.reports ++ [pipelineReport p] }

/-- One page of records, processed in order. -/
def processPage (st : PipeState) (items : List Rec) : PipeState := items.foldl processRecord st

/-- A whole run's pages, processed in order. -/
def processPages (st : PipeState) (pages : List (List Rec)) : PipeState := pages.foldl processPage st

/-- A fresh run over the given pages of records. -/
def runPages (pages : List (List Rec)) : PipeState := processPages initState pages

/-! ## AssetPageSource: `LexmarkCFMClient.iterate_assets` (lines 87-216) -/

/-- Python `int(v)` as used on the `totalPages` metadata value inside
`try: ... int(tp) ... except: pass`: numbers truncate toward zero,
booleans convert, strings parse as integers, everything else raises
(modelled as `none`, which the `except: pass` turns into no break). -/
def toIntPy : JVal → Option Int
  | .jnum i d => some (if 0 ≤ i then Int.fdiv i (d : Int) else -(Int.fdiv (-i) (d : Int)))
  | .jbool b => some (if b then 1 else 0)
  | .jstr s => s.toInt?
  | _ => none

/-- A JSON value's payload when it is a list. -/
def listValue : JVal → Option (List JVal)
  | .jarr xs => some xs
  | _ => none

/-- Line 139's fixed priority order of container keys. -/
def priorityKeys : List String := ["content", "assets", "items", "data", "results"]

/-- The first priority key that is present with a list value
(lines 139-142). -/
def firstPriorityList (fs : List (String × JVal)) : Option (List JVal) :=
  priorityKeys.findSome? (fun k => (objFind fs k).bind listValue)

/-- Lines 136-149: heuristic extraction of the page's item list.
A dict is probed by the priority keys; when that leaves `page_items`
empty (`if not page_items:`) the first list-valued field of the dict
(in its own field order) is used; a bare list is used directly; any
other body yields no items. -/
def extractItems (data : JVal) : List JVal :=
  match data with
  | .jobj fs =>
    let page_items := (firstPriorityList fs).getD []
    if page_items.isEmpty then
      match fs.filterMap (fun p => listValue p.2) with
      | c :: _ => c
      | [] => page_items
    else page_items
  | .jarr xs => xs
  | _ => []

/-- Line 155: `meta['totalPages'] = data.get('totalPages') or
data.get('total_pages') or data.get('pageCount') or None`, then
line 203's `tp = meta.get('totalPages')`; `none` is Python's `None`.
(`totalCount`, `links` and `next` are also collected into `meta` but
never influence control flow or the claims, so they are not modelled;
the `links` block at lines 174-199 fetches a `next` link and discards
the response, a control-flow no-op.) -/
def metaTotalPages (data : JVal) : Option JVal :=
  match data with
  | .jobj fs =>
    let v := pyOr (objGet fs "totalPages" .jnull)
      (pyOr (objGet fs "total_pages" .jnull) (objGet fs "pageCount" .jnull))
    if v.truthy then some v else none
  | _ => none

/-- Lines 201-216: should the generator stop after yielding this page?
First the `totalPages` break (`page >= int(tp) - 1`, exceptions from
`int` swallowed), then the short-page break (`not page_items or
len(page_items) < page_size`); otherwise `page += 1` and the
`while True` loop continues — there is no page-count ceiling. -/
def stopAfterPage (page : Nat) (page_size : Nat) (page_items : List JVal)
    (tp : Option JVal) : Bool :=
  (match tp with
   | some v =>
     match toIntPy v with
     | some t => decide ((page : Int) ≥ t - 1)
     | none => false
   | none => false)
  || page_items.isEmpty || decide (page_items.length < page_size)

/-- How one observed run of the generator ended. -/
inductive RunEnd where
  /-- A `break`: natural termination (last page reached or short page). -/
  | completed
  /-- Every request parameter variant and the bare request failed for a
  page: `st.error(...)` then `return` (lines 124-133). -/
  | failed
  /-- The observation bound (`fuel`) was exhausted with the `while True`
  loop still going: the code itself had not terminated. -/
  | stillRunning
deriving Repr, DecidableEq

/-- One `yield page_items or [], meta` (line 170), instrumented with the
`page` index the loop requested.  (`page_items or []` is the identity on
the list `page_items` already is.) -/
structure PageYield where
  pageIndex : Nat
  items : List JVal
  totalPages : Option JVal
deriving Repr

/-- `LexmarkCFMClient.iterate_assets` (lines 87-216).  `fetchPage n` is
the parsed JSON body obtained for page `n` after the parameter-variant
cascade of lines 102-130, with `none` meaning every variant and the bare
request failed.  The Python generator is an unbounded `while True` loop;
`fuel` bounds how many iterations are observed, and exhausting it
reports `RunEnd.stillRunning`. -/
def iterate_assets (fetchPage : Nat → Option JVal) (page_size : Nat) :
    Nat → Nat → List PageYield × RunEnd
  | 0, _ => ([], .stillRunning)
  | fuel + 1, page =>
    match fetchPage page with
    | none => ([], .failed)
    | some data =>
      let page_items := extractItems data
      let tp := metaTotalPages data
      let y : PageYield := ⟨page, page_items, tp⟩
      if stopAfterPage page page_size page_items tp then ([y], .completed)
      else
        let rest := iterate_assets fetchPage page_size fuel (page + 1)
        (y :: rest.1, rest.2)

/-- Python hashability of a dedup key: lists and dicts are unhashable,
so using one at line 299's `serial in seen_serials` (or line 303's
`add`) raises `TypeError`. -/
def hashable : JVal → Bool
  | .jarr _ => false
  | .jobj _ => false
  | _ => true

/-- A yielded item the dedup loop can process without the script
raising: it must be a dict (line 298 calls `.get` on it) and its
computed serial, when truthy, must be hashable (lines 299/303; a falsy
serial short-circuits past the membership test). -/
def itemOk (v : JVal) : Bool :=
  match v with
  | .jobj fs => !((dedupSerial fs).truthy && !hashable (dedupSerial fs))
  | _ => false

/-- Lines 297-320 applied to one yielded item.  A non-dict item makes
line 298's `p.get` raise `AttributeError`, and a truthy unhashable
serial makes line 299's set-membership test raise `TypeError`; nothing
in the `start_btn` flow catches either, so the script run aborts
(`Except.error`) before the finalize block ever executes. -/
def processItem (st : PipeState) (v : JVal) : Except Unit PipeState :=
  match v with
  | .jobj fs =>
    if (dedupSerial fs).truthy && !hashable (dedupSerial fs) then .error ()
    else .ok (processRecord st fs)
  | _ => .error ()

/-- The dedup loop over the whole sequence of yielded pages; the first
uncaught exception aborts everything after it. -/
def consumePages (pages : List PageYield) : Except Unit PipeState :=
  pages.foldlM (fun st pg => pg.items.foldlM processItem st) initState

/-- The observable outcome of one *completed* `start_btn` run. -/
structure RunResult where
  reports : List Report
  status : RunEnd
  /-- `st.session_state["reports"]`, the set served to the CSV download
  button: the finalize block (lines 351-355) stores the accumulated
  list unconditionally, whichever way the generator ended. -/
  exported : List Report

/-- The whole `start_btn` flow (lines 276-355): drive `iterate_assets`,
feed every yielded page through the dedup-and-classify loop, then
finalize.  `none` is an uncaught exception from the loop: the script
dies before the finalize block, `st.session_state["reports"]` is never
set and nothing is exportable.  (Python interleaves fetching and
processing, so a crash also prevents later fetches; runs are observed
only up to the crash, where the two orders agree.) -/
def start_run (fetchPage : Nat → Option JVal) (page_size fuel : Nat) : Option RunResult :=
  let r := iterate_assets fetchPage page_size fuel 0
  match consumePages r.1 with
  | .error _ => none
  | .ok st => some { reports := st.reports, status := r.2, exported := st.reports }

/-! ## TokenProvider: `LexmarkCFMClient._get_token` (lines 66-79) -/

/-- The token cache: `self.access_token` (initially `None`, line 62) and
`self.token_expiry` (initially `0`, line 63).  Time is modelled at
integer seconds: the code truncates `time.time()` with `int()` when
recording the expiry. -/
structure TokState where
  access_token : JVal
  token_expiry : Int
deriving Repr

/-- What one `_get_token` call did. -/
inductive TokenOutcome where
  /-- Returned the cached token; no network request was made. -/
  | cached (tok : JVal) (st : TokState)
  /-- Performed the credential exchange and cached a fresh token. -/
  | fetched (tok : JVal) (st : TokState)
  /-- The exchange failed: non-2xx status / network error
  (`raise_for_status`) or missing `access_token` key (`KeyError`). -/
  | authError
deriving Repr

/-- Lines 77-79 given the looked-up `data['access_token']`: a missing
key raises `KeyError`; otherwise the token is cached with expiry
`int(time.time()) + 3500`. -/
def exchangeBody (now : Int) : Option JVal → TokenOutcome
  | none => .authError
  | some tok => .fetched tok { access_token := tok, token_expiry := now + 3500 }

/-- The fresh credential exchange of lines 69-79: the `data =
response.json()` body (or `none` for a network / non-2xx failure raised
by `raise_for_status`), from which `data['access_token']` is read; see
`exchangeBody` for the cache update. -/
def exchange (now : Int) : Option Rec → TokenOutcome
  | none => .authError
  | some body => exchangeBody now (objFind body "access_token")

/-- `_get_token` (lines 66-79).  `net` is the parsed JSON body of the
token endpoint's reply, `none` when the POST fails.  The cached token is
reused iff it is truthy and `now < token_expiry - 60`; a fresh token is
cached with `token_expiry = now + 3500` regardless of anything the
server's body declares. -/
def get_token (st : TokState) (now : Int) (net : Option Rec) : TokenOutcome :=
  if st.access_token.truthy && decide (now < st.token_expiry - 60) then
    .cached st.access_token st
  else
    exchange now net

/-! ## Concrete inputs used by the claim theorems -/

/-- The string payload of a JSON value, when it is a string. -/
def JVal.asStr : JVal → Option String
  | .jstr s => some s
  | _ => none

/-- The run invariant of interest: as many recorded identities as
accumulated reports, and no identity recorded twice (w.r.t. Python
`==`). -/
def pipeInv (st : PipeState) : Prop :=
  st.seen_serials.length = st.reports.length ∧
  List.Pairwise (fun a b => JVal.beq a b = false) st.seen_serials

/-- A page source that always answers with a bare one-item list (a full
page for `page_size = 1`) and hence never carries a `totalPages`
indicator. -/
def fullPageSource : Nat → Option JVal := fun _ => some (.jarr [.jnull])

/-- A page source for which every request parameter variant and the bare
request fail on every page. -/
def failingSource : Nat → Option JVal := fun _ => none

/-- Record with identity `A1`, first occurrence. -/
def recA1 : Rec := [("serialNumber", .jstr "A1"), ("modelName", .jstr "M1")]

/-- Record with identity `A2`. -/
def recA2 : Rec := [("serialNumber", .jstr "A2"), ("modelName", .jstr "M2")]

/-- Second occurrence of identity `A1`, with a different payload so the
surviving report identifies which occurrence produced it. -/
def recA1dup : Rec := [("serialNumber", .jstr "A1"), ("modelName", .jstr "MDUP")]

/-- Record with identity `A3`. -/
def recA3 : Rec := [("serialNumber", .jstr "A3"), ("modelName", .jstr "M3")]

/-- Record whose `serialNumber` key is present but empty while `serial`
holds a non-empty value. -/
def recBlankSerial : Rec := [("serialNumber", .jstr ""), ("serial", .jstr "S1")]

/-- Record with a `colorPrintSideCount` but no `printSideCount` entry. -/
def recNoTotal : Rec := [("counters", .jobj [("colorPrintSideCount", .jnum 5 1)])]

/-- Record whose `printSideCount` is present and zero. -/
def recPSZero : Rec :=
  [("counters", .jobj [("printSideCount", .jnum 0 1), ("colorPrintSideCount", .jnum 7 1)])]

/-- Record with a non-empty identity, for exercising the run invariant. -/
def recW : Rec := [("serialNumber", .jstr "W1")]

/-- A source serving one full page (a single well-formed record, with
`page_size = 1`) and then failing every request variant for page 1. -/
def pageThenFail : Nat → Option JVal :=
  fun n => if n = 0 then some (.jarr [.jobj recW]) else none

/-- Response body whose priority key `content` holds an *empty* list
while another field holds a non-empty one. -/
def shapeCx : JVal := .jobj [("extra", .jarr [.jnum 1 1]), ("content", .jarr [])]

/-- Token-endpoint reply declaring a 100-second lifetime. -/
def tokenBody : Rec := [("access_token", .jstr "T"), ("expires_in", .jnum 100 1)]

/-- A cache holding a truthy token that expires at 2000. -/
def cachedState : TokState := ⟨.jstr "T", 2000⟩

/-! ## Helper lemmas -/

/-- A present field wins over any `get` default. -/
theorem objGet_of_find {fs : List (String × JVal)} {k : String} {v : JVal}
    (h : objFind fs k = some v) (d : JVal) : objGet fs k d = v := by
  unfold objGet
  unfold objFind at h
  cases hf : fs.find? (fun p => p.1 == k) with
  | none => rw [hf] at h; simp at h
  | some p => rw [hf] at h; simp at h; simp [h]

/-- An absent field falls back to the `get` default. -/
theorem objGet_of_none {fs : List (String × JVal)} {k : String}
    (h : objFind fs k = none) (d : JVal) : objGet fs k d = d := by
  unfold objGet
  unfold objFind at h
  cases hf : fs.find? (fun p => p.1 == k) with
  | none => simp
  | some p => rw [hf] at h; simp at h

/-- When the classifier succeeds, the report's identity is the
presence-keyed `get` chain of line 225. -/
theorem analyze_ok_id {p : Rec} {r : Report}
    (h : analyze_single_printer p = .ok r) : r.id = reportId p := by
  unfold analyze_single_printer at h
  cases hs : supplyInsight (suppliesVal p) with
  | error e => rw [hs] at h; cases ha : alertInsight (alertsVal p) <;> rw [ha] at h <;> simp at h
  | ok s =>
    cases ha : alertInsight (alertsVal p) with
    | error e => rw [hs, ha] at h; simp at h
    | ok a =>
      rw [hs, ha] at h
      simp at h
      rw [← h]
      rfl

/-- `processRecord` preserves the run invariant for records whose dedup
key is truthy. -/
theorem processRecord_inv {st : PipeState} {p : Rec}
    (ht : (dedupSerial p).truthy = true) (h : pipeInv st) :
    pipeInv (processRecord st p) := by
  obtain ⟨hlen, hpw⟩ := h
  unfold processRecord
  cases hm : seenMem st.seen_serials (dedupSerial p) with
  | true => simpa [ht, hm] using ⟨hlen, hpw⟩
  | false =>
    simp only [ht, hm, Bool.and_false, Bool.false_eq_true, if_false, if_true]
    constructor
    · simpa using hlen
    · refine List.pairwise_cons.mpr ⟨?_, hpw⟩
      intro a ha
      unfold seenMem at hm
      rw [List.any_eq_false] at hm
      have := hm a ha
      simpa using this

/-- The run invariant survives a page of truthy-identity records. -/
theorem processPage_inv : ∀ (items : List Rec) (st : PipeState),
    (∀ p ∈ items, (dedupSerial p).truthy = true) → pipeInv st →
    pipeInv (processPage st items) := by
  intro items
  induction items with
  | nil => intro st _ h; exact h
  | cons p rest ih =>
    intro st hall h
    exact ih (processRecord st p) (fun q hq => hall q (by simp [hq]))
      (processRecord_inv (hall p (by simp)) h)

/-- The run invariant survives any sequence of pages of truthy-identity
records. -/
theorem processPages_inv : ∀ (pages : List (List Rec)) (st : PipeState),
    (∀ pg ∈ pages, ∀ p ∈ pg, (dedupSerial p).truthy = true) → pipeInv st →
    pipeInv (processPages st pages) := by
  intro pages
  induction pages with
  | nil => intro st _ h; exact h
  | cons pg rest ih =>
    intro st hall h
    exact ih (processPage st pg) (fun q hq => hall q (by simp [hq]))
      (processPage_inv pg st (hall pg (by simp)) h)

/-- A generator run that ends in `failed` hit a page whose fetch failed
entirely, and yielded exactly the consecutive pages before it. -/
theorem iterate_failed_pages (fetchPage : Nat → Option JVal) (page_size : Nat) :
    ∀ (fuel p : Nat) (pages : List PageYield),
      iterate_assets fetchPage page_size fuel p = (pages, RunEnd.failed) →
      ∃ k, p ≤ k ∧ fetchPage k = none ∧
        pages.map PageYield.pageIndex = List.range' p (k - p) := by
  intro fuel
  induction fuel with
  | zero =>
    intro p pages h
    unfold iterate_assets at h
    simp at h
  | succ n ih =>
    intro p pages h
    unfold iterate_assets at h
    cases hf : fetchPage p with
    | none =>
      rw [hf] at h
      simp at h
      exact ⟨p, Nat.le_refl p, hf, by simp [h, List.range']⟩
    | some data =>
      rw [hf] at h
      simp only at h
      by_cases hstop : stopAfterPage p page_size (extractItems data) (metaTotalPages data) = true
      · rw [if_pos hstop] at h
        simp at h
      · rw [if_neg hstop] at h
        obtain ⟨h1, h2⟩ := Prod.mk.injEq .. ▸ h
        obtain ⟨k, hk1, hk2, hk3⟩ := ih (p + 1)
          (iterate_assets fetchPage page_size n (p + 1)).1
          (by rw [← h2])
        refine ⟨k, by omega, hk2, ?_⟩
        rw [← h1]
        have hkp : k - p = (k - (p + 1)) + 1 := by omega
        rw [hkp]
        simpa [List.range'] using hk3

/-! ## Claim theorems -/

/-- C1: the claimed 100-page safety ceiling does not exist in
`iterate_assets`.  Against a source that always returns a full page
(`page_size = 1`, one item) and never supplies a `totalPages` indicator,
the `while True` loop never terminates on its own — for every
observation bound it is still running — and a 102-iteration observation
shows it requesting page indices 0..101, i.e. beyond index 100; no
`AbortedSafetyLimit`-like outcome exists anywhere in the code.  (The
`fetched_pages` counter at lines 98/166 is incremented but never
consulted.) -/
theorem C1_no_page_ceiling :
    (∀ fuel page, (iterate_assets fullPageSource 1 fuel page).2 = RunEnd.stillRunning) ∧
    (iterate_assets fullPageSource 1 102 0).1.map PageYield.pageIndex = List.range 102 := by
  constructor
  · intro fuel
    induction fuel with
    | zero => intro page; rfl
    | succ n ih => intro page; exact ih (page + 1)
  · rfl

/-- C2, counterexample: one page holding a single record with no
`serialNumber`/`serial`/`id` field breaks
`len(seenIdentities) == len(accumulatedReports)`: the record is
classified and appended but its falsy identity is never recorded. -/
theorem C2_counterexample :
    (runPages [[([] : Rec)]]).seen_serials.length
      ≠ (runPages [[([] : Rec)]]).reports.length := by decide

/-- C2, amended: for every run in which every record carries a truthy
(non-empty) identity, after every page the number of seen identities
equals the number of accumulated reports, and no identity is ever
recorded (hence classified) twice: the seen identities are pairwise
distinct under Python `==`. -/
theorem C2_amended (pages : List (List Rec))
    (h : ∀ pg ∈ pages, ∀ p ∈ pg, (dedupSerial p).truthy = true) (k : Nat) :
    (runPages (List.take k pages)).seen_serials.length
      = (runPages (List.take k pages)).reports.length ∧
    List.Pairwise (fun a b => JVal.beq a b = false)
      (runPages (List.take k pages)).seen_serials := by
  have hsub : ∀ pg ∈ List.take k pages, ∀ p ∈ pg, (dedupSerial p).truthy = true :=
    fun pg hpg => h pg (List.take_subset k pages hpg)
  exact processPages_inv (List.take k pages) initState hsub ⟨rfl, List.Pairwise.nil⟩

/-- Witness for C2: a concrete one-page run with a truthy identity. -/
theorem C2_amended_witness :
    (runPages (List.take 1 [[recW]])).seen_serials.length
      = (runPages (List.take 1 [[recW]])).reports.length ∧
    List.Pairwise (fun a b => JVal.beq a b = false)
      (runPages (List.take 1 [[recW]])).seen_serials :=
  C2_amended [[recW]] (by decide) 1

/-- C3, counterexample: classifying the record with no `counters`, no
`supplies` and no `alerts` keys does *not* produce zero flags and zero
insights — rule 2 fires (`duplex_ratio = 0 < 0.5`), so one insight is
emitted and the duplex flag is set. -/
theorem C3_counterexample :
    (analyze_single_printer ([] : Rec)).toOption.map (fun r => r.insights.length)
      ≠ some 0 ∧
    (analyze_single_printer ([] : Rec)).toOption.map
        (fun r => (r.pb_padrao, r.duplex, r.reposicao, r.manutencao))
      ≠ some (false, false, false, false) := by
  exact ⟨by decide, by decide⟩

/-- C3, amended: classifying a record in which `counters`, `supplies`
and `alerts` are all absent succeeds with exactly one flag (low duplex
adoption, since the defaulted `duplex_ratio` is `0 < 0.5`) and exactly
one insight, the duplex one; the other three flags stay unset and
nothing raises. -/
theorem C3_amended :
    analyze_single_printer ([] : Rec) = Except.ok
      { id := .jstr "N/A", model := .jstr "N/A", insights := ["Duplex: 0%"],
        pb_padrao := false, duplex := true, reposicao := false, manutencao := false } := rfl

/-- A truthy left operand wins a Python `or`. -/
theorem pyOr_truthy (a b : JVal) (h : a.truthy = true) : pyOr a b = a := by
  simp [pyOr, h]

/-- A falsy left operand loses a Python `or`. -/
theorem pyOr_falsy (a b : JVal) (h : a.truthy = false) : pyOr a b = b := by
  simp [pyOr, h]

/-- C4, counterexample: for the record `{"serialNumber": "",
"serial": "S1"}` the identity recorded in the report is the empty string
(line 225's chain is keyed on key presence), which is not the first
non-empty candidate and differs from the dedup key `"S1"` computed by
line 298's truthiness-keyed chain. -/
theorem C4_counterexample :
    (analyze_single_printer recBlankSerial).toOption.map (fun r => r.id.asStr)
      = some (some "") ∧
    (dedupSerial recBlankSerial).asStr = some "S1" ∧
    ("" : String) ≠ "S1" := by
  exact ⟨rfl, rfl, by decide⟩

/-- C4, amended: the cross-page dedup key is the first *truthy* value
among `serialNumber`, `serial`, `id`; the report's identity is the value
under the first *present* of those keys (`N/A` if none).  Whenever every
present key among the three holds a truthy value and at least one of
them is present, the two chains coincide: the report's identity equals
the dedup key, and that key is truthy. -/
theorem C4_amended (p : Rec)
    (h1 : (objFind p "serialNumber").all JVal.truthy = true)
    (h2 : (objFind p "serial").all JVal.truthy = true)
    (h3 : (objFind p "id").all JVal.truthy = true)
    (h4 : ((objFind p "serialNumber").isSome || (objFind p "serial").isSome
          || (objFind p "id").isSome) = true) :
    (pipelineReport p).id = dedupSerial p ∧ (dedupSerial p).truthy = true := by
  have hkey : reportId p = dedupSerial p ∧ (dedupSerial p).truthy = true := by
    unfold reportId dedupSerial
    cases ha : objFind p "serialNumber" with
    | some v =>
      have hv : v.truthy = true := by simpa [ha] using h1
      rw [objGet_of_find ha, objGet_of_find ha, pyOr_truthy _ _ hv]
      exact ⟨rfl, hv⟩
    | none =>
      rw [objGet_of_none ha, objGet_of_none ha, pyOr_falsy .jnull _ rfl]
      cases hb : objFind p "serial" with
      | some v =>
        have hv : v.truthy = true := by simpa [hb] using h2
        rw [objGet_of_find hb, objGet_of_find hb, pyOr_truthy _ _ hv]
        exact ⟨rfl, hv⟩
      | none =>
        rw [objGet_of_none hb, objGet_of_none hb, pyOr_falsy .jnull _ rfl]
        cases hc : objFind p "id" with
        | some v =>
          have hv : v.truthy = true := by simpa [hc] using h3
          rw [objGet_of_find hc, objGet_of_find hc]
          exact ⟨rfl, hv⟩
        | none => simp [ha, hb, hc] at h4
  refine ⟨?_, hkey.2⟩
  unfold pipelineReport
  cases han : analyze_single_printer p with
  | ok r => simpa [analyze_ok_id han] using hkey.1
  | error e => simp [errorReport, pyOr_truthy _ _ hkey.2]

/-- Witness for C4: a record carrying only a non-empty `serial`. -/
theorem C4_amended_witness :
    (pipelineReport recW).id = dedupSerial recW ∧ (dedupSerial recW).truthy = true :=
  C4_amended recW (by decide) (by decide) (by decide) (by decide)

/-- A well-formed item is processed without an uncaught exception. -/
theorem processItem_ok (st : PipeState) (v : JVal) (h : itemOk v = true) :
    ∃ st2, processItem st v = Except.ok st2 := by
  cases v with
  | jobj fs =>
    have hstep : processItem st (.jobj fs)
        = (if (dedupSerial fs).truthy && !hashable (dedupSerial fs) then .error ()
           else .ok (processRecord st fs)) := rfl
    cases hcond : (dedupSerial fs).truthy && !hashable (dedupSerial fs) with
    | true =>
      have hfalse : itemOk (.jobj fs) = false := by
        have hh : itemOk (.jobj fs)
            = !((dedupSerial fs).truthy && !hashable (dedupSerial fs)) := rfl
        rw [hh, hcond]
        rfl
      rw [hfalse] at h
      exact nomatch h
    | false =>
      rw [hstep, hcond]
      exact ⟨processRecord st fs, rfl⟩
  | jnull => exact nomatch h
  | jbool b => exact nomatch h
  | jnum n d => exact nomatch h
  | jstr s => exact nomatch h
  | jarr xs => exact nomatch h

/-- A page of well-formed items is processed without an uncaught
exception. -/
theorem processPage_ok : ∀ (items : List JVal) (st : PipeState),
    (∀ v ∈ items, itemOk v = true) →
    ∃ st2, items.foldlM processItem st = Except.ok st2 := by
  intro items
  induction items with
  | nil => intro st _; exact ⟨st, rfl⟩
  | cons v rest ih =>
    intro st hall
    obtain ⟨st1, h1⟩ := processItem_ok st v (hall v (by simp))
    obtain ⟨st2, h2⟩ := ih st1 (fun u hu => hall u (by simp [hu]))
    refine ⟨st2, ?_⟩
    rw [show (v :: rest).foldlM processItem st
        = processItem st v >>= fun s => rest.foldlM processItem s from rfl, h1]
    exact h2

/-- A run whose every yielded item is well formed completes the dedup
loop (no uncaught exception), so the finalize block is reached. -/
theorem consumePages_ok : ∀ (pages : List PageYield),
    (∀ pg ∈ pages, ∀ v ∈ pg.items, itemOk v = true) →
    ∃ st, consumePages pages = Except.ok st := by
  have main : ∀ (pages : List PageYield) (st0 : PipeState),
      (∀ pg ∈ pages, ∀ v ∈ pg.items, itemOk v = true) →
      ∃ st, pages.foldlM (fun st pg => pg.items.foldlM processItem st) st0
        = Except.ok st := by
    intro pages
    induction pages with
    | nil => intro st0 _; exact ⟨st0, rfl⟩
    | cons pg rest ih =>
      intro st0 hall
      obtain ⟨st1, h1⟩ := processPage_ok pg.items st0 (hall pg (by simp))
      obtain ⟨st2, h2⟩ := ih st1 (fun q hq => hall q (by simp [hq]))
      refine ⟨st2, ?_⟩
      rw [show (pg :: rest).foldlM (fun st pg2 => pg2.items.foldlM processItem st) st0
          = (pg.items.foldlM processItem st0) >>= (fun s =>
            rest.foldlM (fun st pg2 => pg2.items.foldlM processItem st) s) from rfl, h1]
      exact h2
  intro pages h
  exact main pages initState h

/-- C5: when every request parameter variant and the bare request fail
for some page (the generator run ends `failed`, lines 124-133's
`st.error` + `return`), then — provided every yielded item is a record
the dedup loop can process, i.e. a dict whose truthy serial is hashable,
so that the script does not die of an uncaught exception before
finalizing — the run completes with status `failed`, the generator
yielded exactly the consecutive pages fetched before the failing page
index, and all reports accumulated from those pages are retained in the
final set and exported unchanged (the finalize block at lines 351-355
stores them unconditionally for the CSV download). -/
theorem C5_failed_run (fetchPage : Nat → Option JVal) (page_size fuel : Nat)
    (h : (iterate_assets fetchPage page_size fuel 0).2 = RunEnd.failed)
    (hok : ∀ pg ∈ (iterate_assets fetchPage page_size fuel 0).1, ∀ v ∈ pg.items,
      itemOk v = true) :
    (∃ st, consumePages (iterate_assets fetchPage page_size fuel 0).1 = Except.ok st ∧
      start_run fetchPage page_size fuel
        = some { reports := st.reports, status := RunEnd.failed,
                 exported := st.reports }) ∧
    ∃ k, fetchPage k = none ∧
      (iterate_assets fetchPage page_size fuel 0).1.map PageYield.pageIndex
        = List.range k := by
  constructor
  · obtain ⟨st, hst⟩ := consumePages_ok _ hok
    refine ⟨st, hst, ?_⟩
    have hrun : start_run fetchPage page_size fuel
        = (match consumePages (iterate_assets fetchPage page_size fuel 0).1 with
            | .error _ => none
            | .ok st2 =>
              some { reports := st2.reports,
                     status := (iterate_assets fetchPage page_size fuel 0).2,
                     exported := st2.reports }) := rfl
    rw [hrun, hst, h]
  · obtain ⟨k, hk0, hkn, hkr⟩ := iterate_failed_pages fetchPage page_size fuel 0
      (iterate_assets fetchPage page_size fuel 0).1 (by rw [← h])
    refine ⟨k, hkn, ?_⟩
    rw [hkr, List.range_eq_range']
    norm_num

/-- Witness for C5: one full page with a well-formed record, then a page
for which every request fails. -/
theorem C5_failed_run_witness :
    (∃ st, consumePages (iterate_assets pageThenFail 1 2 0).1 = Except.ok st ∧
      start_run pageThenFail 1 2
        = some { reports := st.reports, status := RunEnd.failed,
                 exported := st.reports }) ∧
    ∃ k, pageThenFail k = none ∧
      (iterate_assets pageThenFail 1 2 0).1.map PageYield.pageIndex
        = List.range k :=
  C5_failed_run pageThenFail 1 2 rfl (by decide)

/-- C6, counterexample: the claim's parenthetical is wrong about the
absent-counter case — a record with `colorPrintSideCount = 5` and *no*
`printSideCount` gets the default denominator `1` (not a value `≤ 0`),
so the ratio used in classification is `5`, not `0`, and the color flag
even fires. -/
theorem C6_counterexample :
    color_ratio_of recNoTotal = ⟨5, 1⟩ ∧ (⟨5, 1⟩ : Frac) ≠ Frac.ofInt 0 ∧
    (analyze_single_printer recNoTotal).toOption.map Report.pb_padrao = some true :=
  ⟨rfl, by decide, rfl⟩

/-- C6, amended: for every record whose `counters` carry a *present*
numeric `printSideCount` that is `≤ 0`, the `color_ratio` used in
classification is `0` — the guard `total > 0` fails, no division
happens, and (with the surrounding `try/except` modelled inside
`tryRatio`) nothing raises.  An absent `printSideCount` instead defaults
to `1`. -/
theorem C6_amended (p : Rec) (fs : List (String × JVal)) (v : JVal) (q : Frac)
    (hc : countersVal p = .jobj fs)
    (hv : objFind fs "printSideCount" = some v)
    (hq : toNum v = some q) (hle : q.n ≤ 0) :
    color_ratio_of p = Frac.ofInt 0 := by
  have hpos : Frac.pos q = false := by
    unfold Frac.pos
    simpa using hle
  unfold color_ratio_of tryRatio
  rw [hc]
  simp only [objGet_of_find hv, hq, hpos]
  simp

/-- Witness for C6: `printSideCount = 0` present alongside a positive
color counter. -/
theorem C6_amended_witness : color_ratio_of recPSZero = Frac.ofInt 0 :=
  C6_amended recPSZero
    [("printSideCount", .jnum 0 1), ("colorPrintSideCount", .jnum 7 1)]
    (.jnum 0 1) ⟨0, 1⟩ rfl rfl rfl (by decide)

/-- C7, counterexample: for the body `{"extra": [1], "content": []}` the
first priority key (`content`) *is* present with a list value, yet the
extracted item list is not that list — because the priority match is
empty, `if not page_items:` sends the code into the fallback, which
returns the object's first list-valued field `[1]`. -/
theorem C7_counterexample :
    firstPriorityList [("extra", .jarr [.jnum 1 1]), ("content", .jarr [])] = some [] ∧
    extractItems shapeCx = [.jnum 1 1] ∧
    (extractItems shapeCx).length ≠ 0 :=
  ⟨rfl, rfl, by decide⟩

/-- C7, amended: a bare-list body is used directly; the value of the
first priority key (`content`, `assets`, `items`, `data`, `results`)
holding a list is used only when that list is *non-empty*; whenever the
priority probe yields nothing or an empty list, the object's first
list-valued field in its own field order is used (empty if the object
has no list-valued field at all). -/
theorem C7_amended :
    (∀ xs, extractItems (.jarr xs) = xs) ∧
    (∀ fs l, firstPriorityList fs = some l → l ≠ [] →
      extractItems (.jobj fs) = l) ∧
    (∀ fs, (firstPriorityList fs).getD [] = [] →
      extractItems (.jobj fs) = (fs.filterMap (fun p => listValue p.2)).headD []) := by
  have hstep : ∀ fs, extractItems (.jobj fs)
      = (if ((firstPriorityList fs).getD []).isEmpty = true then
          match fs.filterMap (fun p => listValue p.2) with
          | c :: _ => c
          | [] => (firstPriorityList fs).getD []
        else (firstPriorityList fs).getD []) := fun fs => rfl
  refine ⟨fun xs => rfl, ?_, ?_⟩
  · intro fs l hf hl
    rw [hstep fs, hf]
    cases l with
    | nil => exact absurd rfl hl
    | cons a as => rfl
  · intro fs hf
    rw [hstep fs, hf]
    cases hfm : fs.filterMap (fun p => listValue p.2) with
    | nil => rfl
    | cons c rest => rfl

/-- Witness for C7: all three shapes at concrete inputs — a bare list, a
non-empty priority match, and a fallback to the first list-valued
field. -/
theorem C7_amended_witness :
    extractItems (.jarr [.jnull]) = [.jnull] ∧
    extractItems (.jobj [("items", .jarr [.jnull])]) = [.jnull] ∧
    extractItems (.jobj [("foo", .jarr [.jnull])]) = [.jnull] :=
  ⟨C7_amended.1 [.jnull],
   C7_amended.2.1 [("items", .jarr [.jnull])] [.jnull] rfl (fun h => nomatch h),
   C7_amended.2.2 [("foo", .jarr [.jnull])] rfl⟩

/-- C8: the two-page scenario `[A1, A2]` then `[A1, A3]` (the repeated
`A1` carrying a different payload) accumulates exactly three reports, in
first-discovery order `A1, A2, A3`; the surviving `A1` report comes from
the first occurrence (its model is `M1`, not the duplicate's `MDUP`),
and the whole set equals that of a run that never saw the duplicate. -/
theorem C8_dedup_order :
    (runPages [[recA1, recA2], [recA1dup, recA3]]).reports.length = 3 ∧
    (runPages [[recA1, recA2], [recA1dup, recA3]]).reports.map Report.id
      = [.jstr "A1", .jstr "A2", .jstr "A3"] ∧
    (runPages [[recA1, recA2], [recA1dup, recA3]]).reports.map Report.model
      = [.jstr "M1", .jstr "M2", .jstr "M3"] ∧
    (runPages [[recA1, recA2], [recA1dup, recA3]]).reports
      = (runPages [[recA1], [recA2], [recA3]]).reports :=
  ⟨rfl, rfl, rfl, rfl⟩

/-- C9, counterexample: the token body declares a 100-second lifetime
(`expires_in`), yet `_get_token` records the expiry as `now + 3500`
(line 78 ignores the body's lifetime entirely): at `now = 1000` the
recorded expiry is `4500`, not `1100`. -/
theorem C9_counterexample :
    objFind tokenBody "expires_in" = some (.jnum 100 1) ∧
    get_token ⟨.jnull, 0⟩ 1000 (some tokenBody)
      = .fetched (.jstr "T") ⟨.jstr "T", 4500⟩ ∧
    (4500 : Int) ≠ 1100 :=
  ⟨rfl, rfl, by decide⟩

/-- C9, amended: `_get_token` never returns a token within 60 seconds of
its recorded expiry (cached reuse requires `now < expiry - 60`; a fresh
token's recorded expiry is 3500 seconds away); a cached return happens
exactly when the cached token is truthy and expires more than 60 seconds
in the future, and then the outcome is independent of the network (no
request is made); and a successful fresh exchange always records
`now + 3500` as the expiry, regardless of any server-declared
lifetime. -/
theorem C9_amended (st : TokState) (now : Int) (net : Option Rec) :
    (∀ tok s, get_token st now net = .cached tok s →
      s = st ∧ now < s.token_expiry - 60 ∧
      ∀ net2, get_token st now net2 = .cached tok s) ∧
    (∀ tok s, get_token st now net = .fetched tok s →
      s.token_expiry = now + 3500 ∧ now < s.token_expiry - 60) ∧
    (st.access_token.truthy = true → now < st.token_expiry - 60 →
      get_token st now net = .cached st.access_token st) := by
  cases hg : st.access_token.truthy && decide (now < st.token_expiry - 60) with
  | true =>
    obtain ⟨ht, hd⟩ := Bool.and_eq_true_iff.mp hg
    have hlt : now < st.token_expiry - 60 := of_decide_eq_true hd
    have hret : ∀ n2 : Option Rec, get_token st now n2 = .cached st.access_token st := by
      intro n2
      unfold get_token
      rw [hg]
      rfl
    refine ⟨?_, ?_, fun _ _ => hret net⟩
    · intro tok s hcs
      rw [hret net] at hcs
      injection hcs with htok hst
      exact ⟨hst.symm, hst ▸ hlt, fun net2 => by rw [hret net2, htok, hst]⟩
    · intro tok s hcs
      rw [hret net] at hcs
      exact absurd hcs (fun h => nomatch h)
  | false =>
    have hrun : get_token st now net = exchange now net := by
      unfold get_token
      rw [hg]
      rfl
    refine ⟨?_, ?_, ?_⟩
    · intro tok s hcs
      rw [hrun] at hcs
      cases net with
      | none => exact absurd hcs (fun h => nomatch h)
      | some body =>
        rw [show exchange now (some body) = exchangeBody now (objFind body "access_token")
          from rfl] at hcs
        cases hfind : objFind body "access_token" with
        | none => rw [hfind] at hcs; exact absurd hcs (fun h => nomatch h)
        | some t => rw [hfind] at hcs; exact absurd hcs (fun h => nomatch h)
    · intro tok s hcs
      rw [hrun] at hcs
      cases net with
      | none => exact absurd hcs (fun h => nomatch h)
      | some body =>
        rw [show exchange now (some body) = exchangeBody now (objFind body "access_token")
          from rfl] at hcs
        cases hfind : objFind body "access_token" with
        | none => rw [hfind] at hcs; exact absurd hcs (fun h => nomatch h)
        | some t =>
          rw [hfind] at hcs
          injection hcs with htok hst
          rw [← hst]
          refine ⟨rfl, ?_⟩
          show now < now + 3500 - 60
          omega
    · intro h1 h2
      rw [h1, decide_eq_true h2] at hg
      exact absurd hg (by decide)

/-- Witness for C9: one fresh exchange (expiry recorded 3500 ahead
despite the declared lifetime) and one cached return (unchanged state,
more than 60 seconds of margin, same outcome for any network). -/
theorem C9_amended_witness :
    ((⟨.jstr "T", 4500⟩ : TokState).token_expiry = 1000 + 3500 ∧
      (1000 : Int) < (⟨.jstr "T", 4500⟩ : TokState).token_expiry - 60) ∧
    (cachedState = cachedState ∧ (100 : Int) < cachedState.token_expiry - 60 ∧
      ∀ net2, get_token cachedState 100 net2 = .cached (.jstr "T") cachedState) :=
  ⟨(C9_amended ⟨.jnull, 0⟩ 1000 (some tokenBody)).2.1 (.jstr "T") ⟨.jstr "T", 4500⟩ rfl,
   (C9_amended cachedState 100 none).1 (.jstr "T") cachedState rfl⟩

/-- C10: a record whose computed identity is falsy (all of
`serialNumber`, `serial`, `id` absent or empty) is never deduplicated:
the dedup loop neither skips it nor records anything in the seen set,
and its report is appended as a separate entry every time it occurs. -/
theorem C10_falsy_identity (st : PipeState) (p : Rec)
    (h : (dedupSerial p).truthy = false) :
    processRecord st p
      = { seen_serials := st.seen_serials,
          reports := st.reports ++ [pipelineReport p] } := by
  simp [processRecord, h]

/-- Witness for C10: the empty record, processed from the empty state. -/
theorem C10_falsy_identity_witness :
    processRecord initState ([] : Rec)
      = { seen_serials := initState.seen_serials,
          reports := initState.reports ++ [pipelineReport ([] : Rec)] } :=
  C10_falsy_identity initState ([] : Rec) rfl
